import Mathlib

/-!
Formal model of the tenant-scoped natural-language-to-query pipeline of the
insurance portal (`streamlit_app`): the input sanitizer and the company
filter accessor (`utils/security.py`), tenant filter enforcement and query
execution (`agent/insurance_agent.py`, `_execute_metrics_query` and
`_process_openai_response`), the demo semantic-layer client
(`utils/semantic_layer.py`, `DbtSemanticLayer.query_metrics` and its
identifier-qualification helpers), and the response formatter
(`_generate_response_from_data`).

Python strings are modelled as `String` (with character-level work on
`List Char`); Python dicts carrying JSON data are modelled as typed
structures; Python functions that may raise are modelled as
`Except String`-valued functions.  External effects (the numpy random
number generator, the Streamlit UI calls inside `query_metrics`, the MCP
transport) are modelled as oracle parameters.
-/

namespace EmbeddedApp

/-! ### Character-list substring machinery

Used to model Python's `str.replace`, the `in` substring test, and to state
"the filter expression contains exactly one tenant clause". -/

/-- Number of positions of `l` at which the pattern `p` starts
(every starting position is counted). -/
def countSub (p : List Char) : List Char → Nat
  | [] => 0
  | c :: rest => (if p.isPrefixOf (c :: rest) then 1 else 0) + countSub p rest

/-- The pattern `p` occurs somewhere in `l` (Python's `p in l` for a
nonempty pattern `p`). -/
def containsSub (p : List Char) : List Char → Bool
  | [] => false
  | c :: rest => p.isPrefixOf (c :: rest) || containsSub p rest

/-- String version of `countSub`. -/
def countSubS (p s : String) : Nat := countSub p.toList s.toList

/-- String version of `containsSub` (Python's `p in s`). -/
def containsSubS (p s : String) : Bool := containsSub p.toList s.toList

/-- Fuel-indexed worker for `pyReplace`; the fuel makes the definition
structurally recursive (so that it reduces inside the kernel), and
`fuel = l.length` always suffices. -/
def pyReplaceGo (old new : List Char) : Nat → List Char → List Char
  | _, [] => []
  | 0, l => l
  | n + 1, c :: rest =>
    if old ≠ [] ∧ old.isPrefixOf (c :: rest) then
      new ++ pyReplaceGo old new n (List.drop (old.length - 1) rest)
    else
      c :: pyReplaceGo old new n rest

/-- Python's `str.replace(old, new)` on character lists: one left-to-right
scan, replacing non-overlapping occurrences and never rescanning the text
it has already emitted.  For `old = []` it is the identity (Python's
`s.replace("", "")` is also the identity). -/
def pyReplace (old new l : List Char) : List Char := pyReplaceGo old new l.length l

/-- Python's `str.replace` on strings. -/
def pyReplaceS (old new s : String) : String := String.mk (pyReplace old.toList new.toList s.toList)

/-- Python's `str.strip()`: drop leading and trailing whitespace
(the ASCII whitespace characters recognised by `Char.isWhitespace`). -/
def pyStrip (l : List Char) : List Char :=
  ((l.dropWhile Char.isWhitespace).reverse.dropWhile Char.isWhitespace).reverse

/-- Python's `str.strip()` on strings. -/
def pyStripS (s : String) : String := String.mk (pyStrip s.toList)

/-- A single-quote character, written as a code point to keep string
literals free of quote characters. -/
def sq : String := String.singleton (Char.ofNat 39)

/-! ### `utils/security.py` -/

/-- The denylist of `sanitize_user_input`
(`utils/security.py`, line 95): `["'", '"', ';', '--', '/*', '*/',
'DROP', 'DELETE', 'INSERT', 'UPDATE']`. -/
def dangerous_chars : List (List Char) :=
  [[Char.ofNat 39], ['"'], [';'], ['-', '-'], ['/', '*'], ['*', '/'],
   "DROP".toList, "DELETE".toList, "INSERT".toList, "UPDATE".toList]

/-- `sanitize_user_input` (`utils/security.py`, lines 86-101): empty input
returns the empty string; otherwise each denylist entry is removed in
order with `str.replace(entry, "")` and the result is stripped. -/
def sanitize_user_input (user_input : String) : String :=
  if user_input = "" then ""
  else String.mk (pyStrip (dangerous_chars.foldl (fun acc p => pyReplace p [] acc) user_input.toList))

/-- The part of the Streamlit `user_context` session dict that the modelled
pipeline reads.  `company_id = none` models a missing key; `some ""` models
an empty value (both are falsy in Python). -/
structure UserContext where
  company_id : Option String
deriving DecidableEq

/-- The error message raised by `get_company_filter`. -/
def no_company_message : String := "No company_id found in session - potential security breach!"

/-- `get_company_filter` (`utils/security.py`, lines 42-55): returns the
session's `company_id`, raising `ValueError` (modelled as `.error`) when it
is absent or empty. -/
def get_company_filter (user_context : UserContext) : Except String String :=
  match user_context.company_id with
  | none => .error no_company_message
  | some cid => if cid = "" then .error no_company_message else .ok cid

/-! ### Data model: rows and structured query requests -/

/-- A result row: a mapping from column name to (numeric) cell value, as
produced by `DataFrame.to_dict('records')`.  Cell values are modelled as
integers; none of the modelled behaviour inspects them. -/
abbrev Row := List (String × Int)

/-- One `group_by` entry of a `query_metrics` function call:
`{"name": ..., "grain": ...}`.  `grain = none` models a dict without a
`grain` key, `grain = some none` models `"grain": null`, and
`grain = some (some g)` a string value (Python's `'grain' in gb` test
distinguishes the first case from the other two). -/
structure GroupBy where
  name : String
  grain : Option (Option String) := none
  deriving DecidableEq

/-- One `order_by` entry: `{"name": ..., "descending": ...}`. -/
structure OrderBy where
  name : String
  descending : Option Bool := none
  deriving DecidableEq

/-- The parsed arguments of a `query_metrics` function call
(the `StructuredQueryRequest`): field `where_` models the `where` key
(`none` when the key is absent). -/
structure QueryArgs where
  metrics : List String
  group_by : Option (List GroupBy) := none
  where_ : Option String := none
  order_by : Option (List OrderBy) := none
  limit : Option Int := none
  deriving DecidableEq

/-! ### `utils/semantic_layer.py`: identifier qualification -/

/-- `self.dimension_identifier_map` (`utils/semantic_layer.py`,
lines 28-50 plus the `company_id` entry added on line 61), in insertion
order. -/
def dimension_identifier_map : List (String × String) :=
  [("claim_date", "member_claims__claim_date"),
   ("claim_type", "member_claims__claim_type"),
   ("claim_status", "member_claims__claim_status"),
   ("provider_name", "member_claims__provider_name"),
   ("diagnosis_description", "member_claims__diagnosis_description"),
   ("first_name", "member_details__first_name"),
   ("last_name", "member_details__last_name"),
   ("email", "member_details__email"),
   ("department", "member_details__department"),
   ("plan_type", "member_details__plan_type"),
   ("is_primary", "member_details__is_primary"),
   ("company_name", "member_details__company_name"),
   ("enrollment_date", "member_details__enrollment_date"),
   ("plan_name", "plan_details__plan_name"),
   ("coinsurance_percentage", "plan_details__coinsurance_percentage"),
   ("copay_primary", "plan_details__copay_primary"),
   ("copay_specialist", "plan_details__copay_specialist"),
   ("plan_created_date", "plan_details__plan_created_date"),
   ("company_id", "member_claims__company_id")]

/-- `self.entity_identifier_map` (`utils/semantic_layer.py`, lines 53-58). -/
def entity_identifier_map : List (String × String) :=
  [("claim", "member_claims__claim"),
   ("member", "member_claims__member"),
   ("company", "member_claims__company"),
   ("plan", "member_details__plan")]

/-- `DbtSemanticLayer._qualify_dimension_name`: a name is returned
unchanged when falsy or already fully qualified (contains `__`), else it is
looked up in the dimension map with itself as the default. -/
def qualify_dimension_name (name : String) : String :=
  if name = "" then name
  else if containsSubS "__" name then name
  else (List.lookup name dimension_identifier_map).getD name

/-- `DbtSemanticLayer._qualify_group_or_order_by` applied to a `group_by`
list: each entry's `name` is replaced by its qualified form when the
qualified form is truthy. -/
def qualify_group_or_order_by (groupings : Option (List GroupBy)) : Option (List GroupBy) :=
  match groupings with
  | none => none
  | some gbs =>
    if gbs = [] then some gbs
    else some (gbs.map (fun gb =>
      let updated_name := qualify_dimension_name gb.name
      if updated_name ≠ "" then { gb with name := updated_name } else gb))

/-- `DbtSemanticLayer._qualify_group_or_order_by` applied to an `order_by`
list (the same code, acting on the `name` field of order entries). -/
def qualify_order_by_list (orderings : Option (List OrderBy)) : Option (List OrderBy) :=
  match orderings with
  | none => none
  | some obs =>
    if obs = [] then some obs
    else some (obs.map (fun ob =>
      let updated_name := qualify_dimension_name ob.name
      if updated_name ≠ "" then { ob with name := updated_name } else ob))

/-- One `re.sub` step of `_qualify_where_clause` for a dimension entry:
the pattern accepts either quote character on each side, so the four
fixed-string variants are replaced (modelling the single regex pass as
successive fixed-string passes). -/
def sub_dimension_ref (friendly qualified s : String) : String :=
  let repl := "Dimension(" ++ sq ++ qualified ++ sq ++ ")"
  let s := pyReplaceS ("Dimension(" ++ sq ++ friendly ++ sq ++ ")") repl s
  let s := pyReplaceS ("Dimension(" ++ sq ++ friendly ++ "\")") repl s
  let s := pyReplaceS ("Dimension(\"" ++ friendly ++ sq ++ ")") repl s
  pyReplaceS ("Dimension(\"" ++ friendly ++ "\")") repl s

/-- One `re.sub` step of `_qualify_where_clause` for an entity entry. -/
def sub_entity_ref (friendly qualified s : String) : String :=
  let repl := "Entity(" ++ sq ++ qualified ++ sq ++ ")"
  let s := pyReplaceS ("Entity(" ++ sq ++ friendly ++ sq ++ ")") repl s
  let s := pyReplaceS ("Entity(" ++ sq ++ friendly ++ "\")") repl s
  let s := pyReplaceS ("Entity(\"" ++ friendly ++ sq ++ ")") repl s
  pyReplaceS ("Entity(\"" ++ friendly ++ "\")") repl s

/-- `DbtSemanticLayer._qualify_where_clause` (`utils/semantic_layer.py`,
lines 105-129). -/
def qualify_where_clause (where_ : Option String) : Option String :=
  match where_ with
  | none => none
  | some s =>
    if s = "" then some s
    else
      let s := dimension_identifier_map.foldl (fun acc fq => sub_dimension_ref fq.1 fq.2 acc) s
      some (entity_identifier_map.foldl (fun acc fq => sub_entity_ref fq.1 fq.2 acc) s)

/-! ### `DbtSemanticLayer.query_metrics` (demo executor) -/

/-- The grain chosen by the loop in `query_metrics` (lines 314-318):
`grain` starts as the string `'day'` and is overwritten by the first
`group_by` entry that has a `grain` key (whose value may be null). -/
def chosen_grain : List GroupBy → Option String
  | [] => some "day"
  | gb :: rest =>
    match gb.grain with
    | some g => g
    | none => chosen_grain rest

/-- Python's `'claim_date' in str(gb)` for a `group_by` dict: true when
the substring occurs in the entry's name or in its grain string. -/
def mentions_claim_date (gb : GroupBy) : Bool :=
  containsSubS "claim_date" gb.name ||
    (match gb.grain with
     | some (some g) => containsSubS "claim_date" g
     | _ => false)

/-- Number of dates produced by
`pd.date_range('2024-01-01', '2024-12-31', freq)` for the frequency chosen
from the grain: 366 daily dates (2024 is a leap year), 52 weekly dates,
12 month ends, 4 quarter ends; any other grain (including null and
`'year'`) falls back to daily. -/
def freq_dates_count (grain : Option String) : Nat :=
  if grain = some "day" then 366
  else if grain = some "week" then 52
  else if grain = some "month" then 12
  else if grain = some "quarter" then 4
  else 366

/-- Length of the `dates` index built by `query_metrics` (lines 312-331):
the grain logic applies only when `group_by` is truthy and some entry
mentions `claim_date`; otherwise the daily range over 2024 is used.  (The
`where`-clause inspection on lines 305-310 can only reassign the start and
end dates to the values they already have, so it does not affect the
count.) -/
def num_dates (group_by : Option (List GroupBy)) : Nat :=
  match group_by with
  | none => 366
  | some gbs =>
    if ¬ gbs.isEmpty ∧ gbs.any mentions_claim_date then freq_dates_count (chosen_grain gbs)
    else 366

/-- `df.head(n)` on a frame with the given rows: the first `n` rows for
`n ≥ 0`, all but the last `|n|` rows for negative `n`. -/
def df_head (n : Int) (rows : List Row) : List Row :=
  if 0 ≤ n then rows.take n.toNat
  else rows.take (rows.length - (-n).toNat)

/-- `if limit: df = df.head(limit)` (line 373): `None` and `0` are falsy. -/
def apply_limit (limit : Option Int) (rows : List Row) : List Row :=
  match limit with
  | none => rows
  | some n => if n ≠ 0 then df_head n rows else rows

/-- `DbtSemanticLayer.query_metrics` (`utils/semantic_layer.py`,
lines 282-385).  `io` models the Streamlit/numpy calls of the body, which
may raise: the surrounding `try` converts any such failure into an empty
`DataFrame` (lines 382-385), so the function itself never raises.
`date_val` and `rand_val` are oracles for the generated date column and
the `np.random` metric columns (the per-metric branches differ only in the
random distribution used). -/
def query_metrics (io : Except String Unit) (date_val : Nat → Int)
    (rand_val : String → Nat → Int) (metrics : List String)
    (group_by : Option (List GroupBy)) (where_ : Option String)
    (order_by : Option (List OrderBy)) (limit : Option Int) : List Row :=
  match io with
  | .error _ => []
  | .ok _ =>
    let group_by := qualify_group_or_order_by group_by
    let _order_by := qualify_order_by_list order_by
    let _where := qualify_where_clause where_
    let dates := List.range (num_dates group_by)
    let df := dates.map (fun i =>
      ("claim_date", date_val i) :: metrics.map (fun m => (m, rand_val m i)))
    apply_limit limit df

/-! ### `agent/insurance_agent.py`: tenant filter enforcement and execution -/

/-- The tenant dimension reference produced by `_execute_metrics_query`:
the literal text of Python's
`f"{{{{ Dimension('company_id') }}}}"` portion. -/
def tenantDimensionRef : String :=
  "\x7b\x7b Dimension(" ++ sq ++ "company_id" ++ sq ++ ") \x7d\x7d"

/-- The full tenant equality clause
`f"{{{{ Dimension('company_id') }}}} = {company_id}"`
(`insurance_agent.py`, line 272). -/
def company_filter_clause (company_id : String) : String :=
  tenantDimensionRef ++ " = " ++ company_id

/-- The filter-injection step of `_execute_metrics_query`
(`insurance_agent.py`, lines 270-277): the Tenant Filter Enforcer.
The tenant clause is AND-composed with a truthy existing `where` value and
installed directly otherwise. -/
def enforce_company_filter (company_id : String) (query_args : QueryArgs) : QueryArgs :=
  let existing_where := query_args.where_.getD ""
  let company_filter := company_filter_clause company_id
  if existing_where ≠ "" then
    { query_args with where_ := some ("(" ++ existing_where ++ ") AND " ++ company_filter) }
  else
    { query_args with where_ := some company_filter }

/-- Queries sent to each backend channel during one
`_execute_metrics_query` call (an explicit effect trace: the semantic-layer
channel and the MCP fallback channel). -/
structure ExecTrace where
  semantic_layer_queries : List QueryArgs
  mcp_queries : List QueryArgs
  deriving DecidableEq

/-- `_execute_metrics_query` (`insurance_agent.py`, lines 264-301).
`semantic_layer` models `self.semantic_layer.query_metrics` composed with
`df.to_dict('records')` (the code inside the `try`); `mcp_query` models
`mcp_query_metrics` composed with the `json.loads` of a string result.
A failure of the first raises into the `except` branch, which makes
exactly one MCP attempt whose failure propagates to the caller. -/
def execute_metrics_query (user_context : UserContext)
    (semantic_layer : QueryArgs → Except String (List Row))
    (mcp_query : QueryArgs → Except String (List Row))
    (query_args : QueryArgs) : Except String (List Row) × ExecTrace :=
  match get_company_filter user_context with
  | .error e => (.error e, ⟨[], []⟩)
  | .ok company_id =>
    let args := enforce_company_filter company_id query_args
    match semantic_layer args with
    | .ok records => (.ok records, ⟨[args], []⟩)
    | .error _ =>
      match mcp_query args with
      | .ok records => (.ok records, ⟨[args], [args]⟩)
      | .error e => (.error e, ⟨[args], [args]⟩)

/-- The semantic-layer channel as actually wired in
`_execute_metrics_query` (lines 284-293): `DbtSemanticLayer.query_metrics`
on the request's fields followed by the `DataFrame`-to-records conversion.
Since `query_metrics` catches its own failures, this channel never
returns an error. -/
def semantic_layer_channel (io : Except String Unit) (date_val : Nat → Int)
    (rand_val : String → Nat → Int) : QueryArgs → Except String (List Row) :=
  fun args =>
    .ok (query_metrics io date_val rand_val args.metrics args.group_by
          args.where_ args.order_by args.limit)

/-! ### `_generate_response_from_data` (Response Formatter) -/

/-- The `data` payload of an agent response: either raw rows or the
single-metric dict `{"metric": ..., "value": ...}`. -/
inductive RespData where
  | rows (records : List Row)
  | metric (name : String) (value : Int)
  deriving DecidableEq

/-- The response dict returned by the agent:
`{"type": ..., "message": ..., "data": ...}`. -/
structure AgentResponse where
  type : String
  message : Option String
  data : Option RespData
  deriving DecidableEq

/-- The fixed no-data message (`insurance_agent.py`, line 309). -/
def no_data_message : String :=
  "I didn" ++ sq ++ "t find any data for your query. This might be because there are no records matching your criteria."

/-- The fixed fallback-branch message (`insurance_agent.py`, line 337). -/
def heres_what_message : String := "Here" ++ sq ++ "s what I found:"

/-- `_generate_response_from_data` (`insurance_agent.py`, lines 303-339).
`format_single` and `format_data` are the presentation helpers
`_format_single_metric_response` and `_format_data_response` (pure string
formatting, abstracted as parameters); the branch structure is modelled
exactly. -/
def generate_response_from_data
    (format_single : String → Int → String → String)
    (format_data : List Row → QueryArgs → String → String)
    (data : List Row) (user_question : String) (query_args : QueryArgs) : AgentResponse :=
  if data = [] then
    { type := "text", message := some no_data_message, data := none }
  else if data.length = 1 ∧ query_args.metrics.length = 1 then
    let metric_name := query_args.metrics.headD ""
    let value :=
      match data.headD [] with
      | [] => 0
      | (_, v) :: _ => v
    { type := "metric",
      message := some (format_single metric_name value user_question),
      data := some (.metric metric_name value) }
  else if data.length > 1 then
    { type := "data",
      message := some (format_data data query_args user_question),
      data := some (.rows data) }
  else
    { type := "data", message := some heres_what_message, data := some (.rows data) }

/-! ### `_process_openai_response` (Translator output handling) -/

/-- The `function_call` part of an LLM message; `arguments` models the
outcome of `json.loads(function_call.arguments)` followed by reading the
schema fields (an `.error` is a JSON parse failure). -/
structure FunctionCall where
  name : String
  arguments : Except String QueryArgs

/-- An LLM chat message: plain content and/or a function call. -/
structure AgentMessage where
  content : Option String := none
  function_call : Option FunctionCall := none

/-- The error message template of the `except` branch in
`_process_openai_response` (line 253). -/
def trouble_message (e : String) : String :=
  "I had trouble retrieving that data: " ++ e

/-- `_process_openai_response` (`insurance_agent.py`, lines 229-262):
a `query_metrics` function call is parsed and executed (any raised error
becomes an apology-style error response); any other message falls through
to a plain-text response. -/
def process_openai_response (user_context : UserContext)
    (semantic_layer mcp_query : QueryArgs → Except String (List Row))
    (format_single : String → Int → String → String)
    (format_data : List Row → QueryArgs → String → String)
    (message : AgentMessage) (user_question : String) : AgentResponse × ExecTrace :=
  match message.function_call with
  | some fc =>
    if fc.name = "query_metrics" then
      match fc.arguments with
      | .error e =>
        ({ type := "error", message := some (trouble_message e), data := none }, ⟨[], []⟩)
      | .ok args =>
        match execute_metrics_query user_context semantic_layer mcp_query args with
        | (.error e, tr) =>
          ({ type := "error", message := some (trouble_message e), data := none }, tr)
        | (.ok data, tr) =>
          (generate_response_from_data format_single format_data data user_question args, tr)
    else ({ type := "text", message := message.content, data := none }, ⟨[], []⟩)
  | none => ({ type := "text", message := message.content, data := none }, ⟨[], []⟩)

/-! ### Metric catalog -/

/-- A catalog entry as returned by `_get_fallback_metrics` /
`mcp_list_metrics`. -/
structure MetricDescriptor where
  name : String
  description : String
  type : String
  deriving DecidableEq

/-- `_get_fallback_metrics` (`insurance_agent.py`, lines 71-80): the
static metric catalog used when MCP is unavailable. -/
def get_fallback_metrics : List MetricDescriptor :=
  [⟨"total_claims", "Total claim amount", "SIMPLE"⟩,
   ⟨"paid_amount", "Amount paid by insurance", "SIMPLE"⟩,
   ⟨"member_responsibility", "Member out-of-pocket amount", "SIMPLE"⟩,
   ⟨"claims_by_type", "Claims breakdown by type", "SIMPLE"⟩,
   ⟨"deductible_met", "YTD deductible met", "SIMPLE"⟩,
   ⟨"oop_spent", "YTD out-of-pocket spent", "SIMPLE"⟩]

/-! ### Lemmas: occurrence counting and prefixes -/

lemma isPrefixOf_iff {l₁ l₂ : List Char} : l₁.isPrefixOf l₂ = true ↔ l₁ <+: l₂ :=
  List.isPrefixOf_iff_prefix

lemma countSub_cons (p : List Char) (c : Char) (rest : List Char) :
    countSub p (c :: rest) = (if p.isPrefixOf (c :: rest) then 1 else 0) + countSub p rest := rfl

lemma countSub_eq_zero_of_short {p l : List Char} (h : l.length < p.length) :
    countSub p l = 0 := by
  induction l with
  | nil => rfl
  | cons c rest ih =>
    have h1 : ¬ (p.isPrefixOf (c :: rest) = true) := by
      intro hb
      have hle := (isPrefixOf_iff.mp hb).length_le
      simp only [List.length_cons] at hle h
      omega
    rw [countSub_cons, if_neg h1, Nat.zero_add]
    exact ih (by simp only [List.length_cons] at h; omega)

lemma countSub_zero_not_occ {p l : List Char} (hp : p ≠ []) (h : countSub p l = 0) :
    ∀ i, ¬ p <+: l.drop i := by
  induction l with
  | nil =>
    intro i hpre
    rw [List.drop_nil] at hpre
    exact hp (List.prefix_nil.mp hpre)
  | cons c rest ih =>
    intro i hpre
    rw [countSub_cons] at h
    obtain ⟨h1, h2⟩ := Nat.add_eq_zero.mp h
    cases i with
    | zero =>
      have hb : p.isPrefixOf (c :: rest) = true := isPrefixOf_iff.mpr hpre
      rw [if_pos hb] at h1
      exact Nat.one_ne_zero h1
    | succ n =>
      rw [List.drop_succ_cons] at hpre
      exact ih h2 n hpre

lemma prefix_split {p d r : List Char} (hl : d.length ≤ p.length) (h : p <+: d ++ r) :
    d <+: p ∧ p.drop d.length <+: r := by
  have hd : d <+: d ++ r := List.prefix_append d r
  have h1 : d <+: p := List.prefix_of_prefix_length_le hd h hl
  refine ⟨h1, ?_⟩
  obtain ⟨t, ht⟩ := h1
  have hdrop : p.drop d.length = t := by rw [← ht, List.drop_left]
  rw [hdrop]
  rw [← ht] at h
  exact (List.prefix_append_right_inj d).mp h

lemma not_prefix_append {a b c : List Char} (h : ¬ a.take b.length <+: b) :
    ¬ a <+: b ++ c := by
  intro hpre
  rcases Nat.le_total a.length b.length with hle | hge
  · apply h
    have h2 := List.prefix_iff_eq_take.mp hpre
    rw [List.take_append_of_le_length hle] at h2
    rw [List.take_of_length_le hle]
    exact List.prefix_iff_eq_take.mpr h2
  · apply h
    have h1 := (prefix_split hge hpre).1
    have h2 : a.take b.length = b := (List.prefix_iff_eq_take.mp h1).symm
    rw [h2]

lemma countSub_append_of_no_start {p w r : List Char}
    (h : ∀ i, i < w.length → ¬ p <+: (w.drop i ++ r)) :
    countSub p (w ++ r) = countSub p r := by
  induction w with
  | nil => rfl
  | cons c w' ih =>
    have h0 : ¬ (p.isPrefixOf (c :: (w' ++ r)) = true) := by
      intro hb
      exact h 0 (by simp) (by simpa using isPrefixOf_iff.mp hb)
    rw [List.cons_append, countSub_cons, if_neg h0, Nat.zero_add]
    refine ih (fun i hi => ?_)
    have := h (i + 1) (by simp only [List.length_cons]; omega)
    rwa [List.drop_succ_cons] at this

lemma countSub_append_block {p B r : List Char} (hlen : B.length ≤ p.length)
    (hB : ∀ i, i < B.length → (B.drop i).isPrefixOf p = false) :
    countSub p (B ++ r) = countSub p r := by
  apply countSub_append_of_no_start
  intro i hi hpre
  have hd : (B.drop i).length ≤ p.length := by
    rw [List.length_drop]; omega
  have h1 := (prefix_split hd hpre).1
  have hb := isPrefixOf_iff.mpr h1
  rw [hB i hi] at hb
  exact Bool.false_ne_true hb

lemma countSub_append_clean {p w b c : List Char} (hp : p ≠ [])
    (hw : countSub p w = 0)
    (hb : ∀ k, k < p.length → 0 < k → ((p.drop k).take b.length).isPrefixOf b = false) :
    countSub p (w ++ (b ++ c)) = countSub p (b ++ c) := by
  apply countSub_append_of_no_start
  intro i hi hpre
  rcases Nat.lt_or_ge (w.drop i).length p.length with hlt | hge
  · have hsplit := prefix_split (Nat.le_of_lt hlt) hpre
    have hk : 0 < (w.drop i).length := by rw [List.length_drop]; omega
    refine not_prefix_append ?_ hsplit.2
    intro hpre2
    have hbt := isPrefixOf_iff.mpr hpre2
    rw [hb (w.drop i).length hlt hk] at hbt
    exact Bool.false_ne_true hbt
  · have hocc : p <+: w.drop i := by
      have h2 := List.prefix_iff_eq_take.mp hpre
      rw [List.take_append_of_le_length hge] at h2
      exact List.prefix_iff_eq_take.mpr h2
    exact countSub_zero_not_occ hp hw i hocc

lemma countSub_cons_self {p r : List Char} (hp : p ≠ []) :
    countSub p (p ++ r) = 1 + countSub p (p.tail ++ r) := by
  cases p with
  | nil => exact absurd rfl hp
  | cons c p' =>
    rw [List.cons_append, countSub_cons,
      if_pos (isPrefixOf_iff.mpr (by rw [← List.cons_append]; exact List.prefix_append _ _))]
    rfl

lemma one_le_countSub_append {p l₂ : List Char} (hp : p ≠ []) (h : p <+: l₂)
    (l₁ : List Char) : 1 ≤ countSub p (l₁ ++ l₂) := by
  induction l₁ with
  | nil =>
    cases l₂ with
    | nil => exact absurd (List.prefix_nil.mp h) hp
    | cons c rest =>
      rw [List.nil_append, countSub_cons, if_pos (isPrefixOf_iff.mpr h)]
      omega
  | cons c l₁' ih =>
    rw [List.cons_append, countSub_cons]
    exact le_trans ih (Nat.le_add_left _ _)

lemma countSub_le_of_pattern_extension {p q : List Char} (hpq : p <+: q) (l : List Char) :
    countSub q l ≤ countSub p l := by
  induction l with
  | nil => exact Nat.le_refl 0
  | cons c rest ih =>
    rw [countSub_cons, countSub_cons]
    by_cases hb : q.isPrefixOf (c :: rest) = true
    · have hpb : p.isPrefixOf (c :: rest) = true :=
        isPrefixOf_iff.mpr (hpq.trans (isPrefixOf_iff.mp hb))
      rw [if_pos hb, if_pos hpb]
      omega
    · rw [if_neg hb, Nat.zero_add]
      exact le_trans ih (Nat.le_add_left _ _)

/-! ### Lemmas: `pyReplace`, `pyStrip`, and the sanitizer -/

lemma pyReplaceGo_length_le (old : List Char) :
    ∀ (fuel : Nat) (l : List Char), (pyReplaceGo old [] fuel l).length ≤ l.length := by
  intro fuel
  induction fuel with
  | zero => intro l; cases l <;> simp [pyReplaceGo]
  | succ n ih =>
    intro l
    cases l with
    | nil => simp [pyReplaceGo]
    | cons c rest =>
      rw [pyReplaceGo]
      split
      · rw [List.nil_append]
        calc (pyReplaceGo old [] n (List.drop (old.length - 1) rest)).length
            ≤ (List.drop (old.length - 1) rest).length := ih _
          _ ≤ (c :: rest).length := by rw [List.length_drop]; simp; omega
      · simp only [List.length_cons]
        exact Nat.succ_le_succ (ih rest)

lemma pyReplaceGo_not_contains (old new : List Char) :
    ∀ (fuel : Nat) (l : List Char), containsSub old l = false →
      pyReplaceGo old new fuel l = l := by
  intro fuel
  induction fuel with
  | zero => intro l _; cases l <;> rfl
  | succ n ih =>
    intro l h
    cases l with
    | nil => rfl
    | cons c rest =>
      rw [containsSub, Bool.or_eq_false_iff] at h
      rw [pyReplaceGo, if_neg (fun hc => by rw [h.1] at hc; exact Bool.false_ne_true hc.2)]
      rw [ih rest h.2]

lemma pyReplace_not_contains {old new l : List Char} (h : containsSub old l = false) :
    pyReplace old new l = l :=
  pyReplaceGo_not_contains old new l.length l h

lemma pyReplace_remove_length_le (old l : List Char) :
    (pyReplace old [] l).length ≤ l.length :=
  pyReplaceGo_length_le old l.length l

lemma pyStrip_length_le (l : List Char) : (pyStrip l).length ≤ l.length := by
  unfold pyStrip
  rw [List.length_reverse]
  calc ((l.dropWhile Char.isWhitespace).reverse.dropWhile Char.isWhitespace).length
      ≤ (l.dropWhile Char.isWhitespace).reverse.length :=
        (List.dropWhile_sublist _).length_le
    _ = (l.dropWhile Char.isWhitespace).length := List.length_reverse _
    _ ≤ l.length := (List.dropWhile_sublist _).length_le

lemma foldl_remove_length_le (ps : List (List Char)) :
    ∀ l : List Char, (ps.foldl (fun acc p => pyReplace p [] acc) l).length ≤ l.length := by
  induction ps with
  | nil => intro l; exact Nat.le_refl _
  | cons p ps ih =>
    intro l
    rw [List.foldl_cons]
    exact le_trans (ih (pyReplace p [] l)) (pyReplace_remove_length_le p l)

lemma foldl_remove_id {ps : List (List Char)} {l : List Char}
    (h : ∀ p ∈ ps, containsSub p l = false) :
    ps.foldl (fun acc p => pyReplace p [] acc) l = l := by
  induction ps with
  | nil => rfl
  | cons p ps ih =>
    rw [List.foldl_cons, pyReplace_not_contains (h p (by simp))]
    exact ih (fun q hq => h q (by simp [hq]))

/-! ### Bridge lemmas about the pipeline definitions -/

lemma toList_append (a b : String) : (a ++ b).toList = a.toList ++ b.toList :=
  String.data_append a b

lemma process_openai_response_ok_args (user_context : UserContext)
    (semantic_layer mcp_query : QueryArgs → Except String (List Row))
    (format_single : String → Int → String → String)
    (format_data : List Row → QueryArgs → String → String)
    (content : Option String) (args : QueryArgs) (user_question : String) :
    process_openai_response user_context semantic_layer mcp_query format_single format_data
        ⟨content, some ⟨"query_metrics", .ok args⟩⟩ user_question =
      (match execute_metrics_query user_context semantic_layer mcp_query args with
       | (.error e, tr) =>
         ({ type := "error", message := some (trouble_message e), data := none }, tr)
       | (.ok data, tr) =>
         (generate_response_from_data format_single format_data data user_question args, tr)) :=
  rfl

lemma process_trace_eq (user_context : UserContext)
    (semantic_layer mcp_query : QueryArgs → Except String (List Row))
    (format_single : String → Int → String → String)
    (format_data : List Row → QueryArgs → String → String)
    (content : Option String) (args : QueryArgs) (user_question : String) :
    (process_openai_response user_context semantic_layer mcp_query format_single format_data
        ⟨content, some ⟨"query_metrics", .ok args⟩⟩ user_question).2 =
      (execute_metrics_query user_context semantic_layer mcp_query args).2 := by
  rw [process_openai_response_ok_args]
  rcases execute_metrics_query user_context semantic_layer mcp_query args with ⟨res, tr⟩
  cases res <;> rfl

lemma execute_trace_sl (user_context : UserContext) (company_id : String)
    (semantic_layer mcp_query : QueryArgs → Except String (List Row)) (args : QueryArgs)
    (hg : get_company_filter user_context = .ok company_id) :
    (execute_metrics_query user_context semantic_layer mcp_query args).2.semantic_layer_queries =
      [enforce_company_filter company_id args] := by
  simp only [execute_metrics_query, hg]
  cases hsl : semantic_layer (enforce_company_filter company_id args) with
  | ok v => rfl
  | error e =>
    cases hm : mcp_query (enforce_company_filter company_id args) with
    | ok v => rfl
    | error e2 => rfl

lemma enforce_company_filter_where (company_id : String) (args : QueryArgs) :
    (enforce_company_filter company_id args).where_ =
      some (if args.where_.getD "" = "" then company_filter_clause company_id
            else "(" ++ args.where_.getD "" ++ ") AND " ++ company_filter_clause company_id) := by
  simp only [enforce_company_filter]
  by_cases h : args.where_.getD "" = ""
  · rw [if_neg (fun hc => hc h), if_pos h]
  · rw [if_pos h, if_neg h]

lemma enforce_getD_eq (company_id : String) (args : QueryArgs) :
    (enforce_company_filter company_id args).where_.getD "" =
      (if args.where_.getD "" = "" then company_filter_clause company_id
       else "(" ++ args.where_.getD "" ++ ") AND " ++ company_filter_clause company_id) := by
  rw [enforce_company_filter_where]
  rfl

lemma tenant_ref_length : tenantDimensionRef.length = 29 := by decide

lemma company_filter_clause_length (company_id : String) :
    (company_filter_clause company_id).length = 32 + company_id.length := by
  unfold company_filter_clause
  rw [String.length_append, String.length_append, tenant_ref_length]
  rfl

lemma company_filter_clause_ne_empty (company_id : String) :
    company_filter_clause company_id ≠ "" := by
  intro h
  have h2 := congrArg String.length h
  rw [company_filter_clause_length] at h2
  have h3 : ("" : String).length = 0 := rfl
  omega

lemma enforce_getD_ne_empty (company_id : String) (args : QueryArgs) :
    (enforce_company_filter company_id args).where_.getD "" ≠ "" := by
  rw [enforce_getD_eq]
  by_cases h : args.where_.getD "" = ""
  · rw [if_pos h]
    exact company_filter_clause_ne_empty company_id
  · rw [if_neg h]
    intro hc
    have h2 := congrArg String.length hc
    rw [String.length_append, String.length_append, String.length_append,
      company_filter_clause_length] at h2
    have h3 : ("(" : String).length = 1 := rfl
    have h4 : ("" : String).length = 0 := rfl
    omega

/-! ### Claim C2 -/

/-- C2: when the session context carries no tenant id (`company_id` absent
or empty), `_execute_metrics_query` fails with the `get_company_filter`
error for every request, before either query channel is invoked (the
execution trace is empty), and `_process_openai_response` converts that
failure into an error reply — no unscoped query is ever executed. -/
theorem C2_missing_tenant_aborts :
    ∀ (user_context : UserContext)
      (semantic_layer mcp_query : QueryArgs → Except String (List Row))
      (format_single : String → Int → String → String)
      (format_data : List Row → QueryArgs → String → String)
      (content : Option String) (user_question : String) (query_args : QueryArgs),
      (user_context.company_id = none ∨ user_context.company_id = some "") →
      execute_metrics_query user_context semantic_layer mcp_query query_args =
          (.error no_company_message, ⟨[], []⟩) ∧
        process_openai_response user_context semantic_layer mcp_query format_single
            format_data ⟨content, some ⟨"query_metrics", .ok query_args⟩⟩ user_question =
          ({ type := "error", message := some (trouble_message no_company_message),
             data := none }, ⟨[], []⟩) := by
  intro ctx sl mcp fS fD content q args h
  have hg : get_company_filter ctx = .error no_company_message := by
    rcases h with h | h <;> simp [get_company_filter, h]
  have hexec : execute_metrics_query ctx sl mcp args = (.error no_company_message, ⟨[], []⟩) := by
    simp only [execute_metrics_query, hg]
  refine ⟨hexec, ?_⟩
  rw [process_openai_response_ok_args, hexec]

/-- C2 witness: a concrete session with no `company_id`. -/
theorem C2_missing_tenant_aborts_witness :
    ((⟨none⟩ : UserContext).company_id = none ∨ (⟨none⟩ : UserContext).company_id = some "") ∧
      execute_metrics_query ⟨none⟩ (fun _ => .ok []) (fun _ => .ok [])
          ⟨["deductible_met"], none, none, none, none⟩ =
        (.error no_company_message, ⟨[], []⟩) ∧
      process_openai_response ⟨none⟩ (fun _ => .ok []) (fun _ => .ok [])
          (fun _ _ _ => "") (fun _ _ _ => "")
          ⟨none, some ⟨"query_metrics", .ok ⟨["deductible_met"], none, none, none, none⟩⟩⟩ "q" =
        ({ type := "error", message := some (trouble_message no_company_message),
           data := none }, ⟨[], []⟩) :=
  ⟨Or.inl rfl,
   C2_missing_tenant_aborts ⟨none⟩ (fun _ => .ok []) (fun _ => .ok [])
     (fun _ _ _ => "") (fun _ _ _ => "") none "q"
     ⟨["deductible_met"], none, none, none, none⟩ (Or.inl rfl)⟩

/-! ### Claim C6 -/

/-- C6 counterexample: the sanitizer is not idempotent.  Removing `DROP`
from `DRDROPOP` splices the surrounding text into a fresh `DROP`, which a
second application removes, so `sanitize(sanitize(x)) ≠ sanitize(x)`. -/
theorem C6_counterexample :
    sanitize_user_input (sanitize_user_input "DRDROPOP") ≠ sanitize_user_input "DRDROPOP" := by
  decide

/-- C6 (amended): `sanitize_user_input` never lengthens its input and maps
empty input to the empty string (and, being a total function, never
raises); idempotence however fails, see `C6_counterexample`. -/
theorem C6_sanitizer_bounds :
    (∀ s : String, (sanitize_user_input s).length ≤ s.length) ∧
      sanitize_user_input "" = "" := by
  constructor
  · intro s
    unfold sanitize_user_input
    split
    · rename_i hs
      subst hs
      exact Nat.le_refl _
    · show (pyStrip (dangerous_chars.foldl (fun acc p => pyReplace p [] acc) s.toList)).length ≤
        s.length
      have h1 := pyStrip_length_le (dangerous_chars.foldl (fun acc p => pyReplace p [] acc) s.toList)
      have h2 := foldl_remove_length_le dangerous_chars s.toList
      have h3 : s.toList.length = s.length := rfl
      omega
  · rfl

/-! ### Claim C9 -/

/-- C9: the denylist is matched case-sensitively; on any input containing
none of the exact-case denylist substrings, `sanitize_user_input` only
strips leading and trailing whitespace. -/
theorem C9_case_sensitive_denylist :
    ∀ s : String, (∀ p ∈ dangerous_chars, containsSub p s.toList = false) →
      sanitize_user_input s = pyStripS s := by
  intro s h
  unfold sanitize_user_input pyStripS
  split
  · rename_i hs
    subst hs
    rfl
  · rw [foldl_remove_id h]

/-- C9 witness: a lowercase injection attempt passes through unchanged up
to whitespace trimming. -/
theorem C9_case_sensitive_denylist_witness :
    (∀ p ∈ dangerous_chars, containsSub p ("  drop table from claims  " : String).toList = false) ∧
      sanitize_user_input "  drop table from claims  " = pyStripS "  drop table from claims  " :=
  ⟨by decide, C9_case_sensitive_denylist "  drop table from claims  " (by decide)⟩

/-! ### Claim C8 -/

/-- C8: on a zero-row result the formatter returns the fixed no-data reply
(kind `text`, the fixed message, no payload), for every question, request
and formatting helpers. -/
theorem C8_empty_result_reply :
    ∀ (format_single : String → Int → String → String)
      (format_data : List Row → QueryArgs → String → String)
      (user_question : String) (query_args : QueryArgs),
      generate_response_from_data format_single format_data [] user_question query_args =
        { type := "text", message := some no_data_message, data := none } := by
  intro fS fD q args
  rfl

/-! ### Claim C10 -/

/-- C10: a single-row result with more than one requested metric falls to
the formatter's fallback branch: kind `data`, the fixed message, and the
raw rows as payload. -/
theorem C10_single_row_multi_metric :
    ∀ (format_single : String → Int → String → String)
      (format_data : List Row → QueryArgs → String → String)
      (user_question : String) (query_args : QueryArgs) (row : Row),
      1 < query_args.metrics.length →
      generate_response_from_data format_single format_data [row] user_question query_args =
        { type := "data", message := some heres_what_message,
          data := some (.rows [row]) } := by
  intro fS fD q args row h
  unfold generate_response_from_data
  rw [if_neg (by simp), if_neg (by simp; omega), if_neg (by simp)]

/-- C10 witness: one row, two metrics. -/
theorem C10_single_row_multi_metric_witness :
    1 < (QueryArgs.mk ["total_claims", "oop_spent"] none none none none).metrics.length ∧
      generate_response_from_data (fun _ _ _ => "") (fun _ _ _ => "")
          [[("total_claims", 3)]] "q" (QueryArgs.mk ["total_claims", "oop_spent"] none none none none) =
        { type := "data", message := some heres_what_message,
          data := some (.rows [[("total_claims", 3)]]) } :=
  ⟨by decide,
   C10_single_row_multi_metric (fun _ _ _ => "") (fun _ _ _ => "") "q"
     (QueryArgs.mk ["total_claims", "oop_spent"] none none none none)
     [("total_claims", 3)] (by decide)⟩

/-! ### Claim C3 -/

/-- C3 counterexample: applying the enforcer twice with the same tenant id
does not give the same request as applying it once (the clause is
duplicated), refuting `enforce(enforce(r, s), s) = enforce(r, s)`. -/
theorem C3_counterexample :
    enforce_company_filter "42"
        (enforce_company_filter "42" ⟨["total_claims"], none, none, none, none⟩) ≠
      enforce_company_filter "42" ⟨["total_claims"], none, none, none, none⟩ := by
  decide

/-- C3 (amended): tenant filter enforcement is not idempotent.  A second
application always wraps the already-enforced filter expression and
AND-appends a second copy of the tenant clause, so the doubly-enforced
request differs from the singly-enforced one for every request and tenant
id. -/
theorem C3_enforcement_not_idempotent :
    ∀ (query_args : QueryArgs) (company_id : String),
      (enforce_company_filter company_id (enforce_company_filter company_id query_args)).where_ =
          some ("(" ++ ((enforce_company_filter company_id query_args).where_.getD "") ++
            ") AND " ++ company_filter_clause company_id) ∧
        enforce_company_filter company_id (enforce_company_filter company_id query_args) ≠
          enforce_company_filter company_id query_args := by
  intro args cid
  have hne := enforce_getD_ne_empty cid args
  constructor
  · rw [enforce_company_filter_where, if_neg hne]
  · intro heq
    have h1 : (enforce_company_filter cid (enforce_company_filter cid args)).where_.getD "" =
        (enforce_company_filter cid args).where_.getD "" := by rw [heq]
    rw [enforce_getD_eq cid (enforce_company_filter cid args), if_neg hne] at h1
    have h2 := congrArg String.length h1
    rw [String.length_append, String.length_append, String.length_append,
      company_filter_clause_length] at h2
    have h3 : ("(" : String).length = 1 := rfl
    omega

/-! ### Claim C7 -/

lemma freq_dates_count_le (grain : Option String) : freq_dates_count grain ≤ 366 := by
  unfold freq_dates_count
  split_ifs <;> omega

lemma num_dates_le (group_by : Option (List GroupBy)) : num_dates group_by ≤ 366 := by
  cases group_by with
  | none => simp [num_dates]
  | some gbs =>
    simp only [num_dates]
    split
    · exact freq_dates_count_le _
    · omega

lemma apply_limit_length_le (limit : Option Int) (rows : List Row) :
    (apply_limit limit rows).length ≤ rows.length := by
  cases limit with
  | none => exact Nat.le_refl _
  | some n =>
    simp only [apply_limit, df_head]
    split
    · split
      · rw [List.length_take]
        exact Nat.min_le_right _ _
      · rw [List.length_take]
        exact Nat.min_le_right _ _
    · exact Nat.le_refl _

lemma apply_limit_pos_length (n : Int) (hn : 0 < n) (rows : List Row) :
    (apply_limit (some n) rows).length ≤ n.toNat := by
  simp only [apply_limit, df_head]
  rw [if_pos (by omega : n ≠ 0), if_pos (by omega : (0 : Int) ≤ n), List.length_take]
  exact Nat.min_le_left _ _

/-- C7: every result of `DbtSemanticLayer.query_metrics` is bounded: at
most 366 rows in all cases (the demo date range covers at most the 366
days of 2024), and at most `limit` rows whenever the caller supplies a
positive `limit`. -/
theorem C7_result_bounded :
    ∀ (io : Except String Unit) (date_val : Nat → Int) (rand_val : String → Nat → Int)
      (metrics : List String) (group_by : Option (List GroupBy)) (where_ : Option String)
      (order_by : Option (List OrderBy)) (limit : Option Int),
      (query_metrics io date_val rand_val metrics group_by where_ order_by limit).length ≤ 366 ∧
        (∀ n : Int, limit = some n → 0 < n →
          (query_metrics io date_val rand_val metrics group_by where_ order_by limit).length ≤
            n.toNat) := by
  intro io dv rv metrics gb w ob limit
  cases io with
  | error e =>
    constructor
    · show ([] : List Row).length ≤ 366
      simp
    · intro n _ _
      show ([] : List Row).length ≤ n.toNat
      simp
  | ok u =>
    have hq : query_metrics (.ok u) dv rv metrics gb w ob limit =
        apply_limit limit ((List.range (num_dates (qualify_group_or_order_by gb))).map
          (fun i => ("claim_date", dv i) :: metrics.map (fun m => (m, rv m i)))) := rfl
    constructor
    · rw [hq]
      calc (apply_limit limit _).length
          ≤ ((List.range (num_dates (qualify_group_or_order_by gb))).map
              (fun i => ("claim_date", dv i) :: metrics.map (fun m => (m, rv m i)))).length :=
            apply_limit_length_le _ _
        _ = num_dates (qualify_group_or_order_by gb) := by
            rw [List.length_map, List.length_range]
        _ ≤ 366 := num_dates_le _
    · intro n hn hpos
      rw [hq, hn]
      exact apply_limit_pos_length n hpos _

/-- C7 witness: a query with `limit = 5` respects both bounds. -/
theorem C7_result_bounded_witness :
    (query_metrics (.ok ()) (fun _ => 0) (fun _ _ => 1) ["oop_spent"] none none none
        (some 5)).length ≤ 366 ∧
      (some (5 : Int) = some (5 : Int) ∧ (0 : Int) < 5 ∧
        (query_metrics (.ok ()) (fun _ => 0) (fun _ _ => 1) ["oop_spent"] none none none
            (some 5)).length ≤ (5 : Int).toNat) :=
  ⟨(C7_result_bounded (.ok ()) (fun _ => 0) (fun _ _ => 1) ["oop_spent"] none none none
      (some 5)).1,
   rfl, by decide,
   (C7_result_bounded (.ok ()) (fun _ => 0) (fun _ _ => 1) ["oop_spent"] none none none
      (some 5)).2 5 rfl (by decide)⟩

/-! ### Claim C5 -/

/-- C5 counterexample: with a tenant present, a failing data generation
inside the primary channel (`DbtSemanticLayer.query_metrics`) and a failing
MCP fallback, `_execute_metrics_query` returns a successful empty result
and never touches the fallback channel — no `QueryExecutionError` is
surfaced. -/
theorem C5_counterexample :
    (execute_metrics_query ⟨some "42"⟩
        (semantic_layer_channel (.error "semantic layer down") (fun _ => 0) (fun _ _ => 1))
        (fun _ => .error "mcp down")
        ⟨["total_claims"], none, none, none, none⟩).1 = .ok [] ∧
      (execute_metrics_query ⟨some "42"⟩
          (semantic_layer_channel (.error "semantic layer down") (fun _ => 0) (fun _ _ => 1))
          (fun _ => .error "mcp down")
          ⟨["total_claims"], none, none, none, none⟩).2.mcp_queries = [] :=
  ⟨rfl, rfl⟩

/-- C5 (amended): at the `_execute_metrics_query` level, a primary-channel
exception leads to exactly one MCP fallback attempt whose failure is
surfaced as the error; but the shipped primary channel
(`DbtSemanticLayer.query_metrics`) catches its own failures and returns an
empty frame, so an internal primary failure yields a successful empty
result and the fallback is never attempted. -/
theorem C5_single_fallback_and_swallowed_primary :
    (∀ (user_context : UserContext) (company_id : String)
       (semantic_layer mcp_query : QueryArgs → Except String (List Row))
       (query_args : QueryArgs) (e : String),
       get_company_filter user_context = .ok company_id →
       semantic_layer (enforce_company_filter company_id query_args) = .error e →
       (execute_metrics_query user_context semantic_layer mcp_query query_args).2.mcp_queries =
           [enforce_company_filter company_id query_args] ∧
         (∀ e₂ : String,
           mcp_query (enforce_company_filter company_id query_args) = .error e₂ →
           execute_metrics_query user_context semantic_layer mcp_query query_args =
             (.error e₂, ⟨[enforce_company_filter company_id query_args],
               [enforce_company_filter company_id query_args]⟩))) ∧
      (∀ (user_context : UserContext) (company_id : String) (e : String)
         (date_val : Nat → Int) (rand_val : String → Nat → Int)
         (mcp_query : QueryArgs → Except String (List Row)) (query_args : QueryArgs),
         get_company_filter user_context = .ok company_id →
         execute_metrics_query user_context
             (semantic_layer_channel (.error e) date_val rand_val) mcp_query query_args =
           (.ok [], ⟨[enforce_company_filter company_id query_args], []⟩)) := by
  constructor
  · intro ctx cid sl mcp args e hg hsl
    constructor
    · simp only [execute_metrics_query, hg, hsl]
      cases hm : mcp (enforce_company_filter cid args) with
      | ok v => rfl
      | error e2 => rfl
    · intro e₂ hm
      simp only [execute_metrics_query, hg, hsl, hm]
  · intro ctx cid e dv rv mcp args hg
    simp only [execute_metrics_query, hg]
    rfl

/-- C5 witness: concrete channels exercising both halves of the amended
statement. -/
theorem C5_single_fallback_and_swallowed_primary_witness :
    get_company_filter ⟨some "42"⟩ = .ok "42" ∧
      (fun (_ : QueryArgs) => (.error "boom" : Except String (List Row)))
          (enforce_company_filter "42" ⟨["total_claims"], none, none, none, none⟩) =
        .error "boom" ∧
      (fun (_ : QueryArgs) => (.error "mcp down" : Except String (List Row)))
          (enforce_company_filter "42" ⟨["total_claims"], none, none, none, none⟩) =
        .error "mcp down" ∧
      execute_metrics_query ⟨some "42"⟩ (fun _ => .error "boom") (fun _ => .error "mcp down")
          ⟨["total_claims"], none, none, none, none⟩ =
        (.error "mcp down", ⟨[enforce_company_filter "42" ⟨["total_claims"], none, none, none, none⟩],
          [enforce_company_filter "42" ⟨["total_claims"], none, none, none, none⟩]⟩) ∧
      execute_metrics_query ⟨some "42"⟩
          (semantic_layer_channel (.error "io") (fun _ => 0) (fun _ _ => 1))
          (fun _ => .error "mcp down") ⟨["total_claims"], none, none, none, none⟩ =
        (.ok [], ⟨[enforce_company_filter "42" ⟨["total_claims"], none, none, none, none⟩], []⟩) :=
  ⟨rfl, rfl, rfl,
   (C5_single_fallback_and_swallowed_primary.1 ⟨some "42"⟩ "42" (fun _ => .error "boom")
      (fun _ => .error "mcp down") ⟨["total_claims"], none, none, none, none⟩ "boom"
      rfl rfl).2 "mcp down" rfl,
   C5_single_fallback_and_swallowed_primary.2 ⟨some "42"⟩ "42" "io" (fun _ => 0) (fun _ _ => 1)
     (fun _ => .error "mcp down") ⟨["total_claims"], none, none, none, none⟩ rfl⟩

/-! ### Claim C4 -/

/-- A `query_metrics` function call naming a metric that is in no catalog
(used by the C4 counterexample). -/
def bogus_query_call : AgentMessage :=
  ⟨none, some ⟨"query_metrics", .ok ⟨["bogus_metric"], none, none, none, some 1⟩⟩⟩

/-- The semantic-layer channel with healthy internals (used by the C4
counterexample). -/
def demo_channel_ok : QueryArgs → Except String (List Row) :=
  semantic_layer_channel (.ok ()) (fun _ => 0) (fun _ _ => 7)

/-- C4 counterexample: `bogus_metric` is absent from the fallback catalog,
yet the pipeline executes the query (the semantic layer is invoked) and
replies with a data response, not an error — no `TranslationError` occurs
and the executor is reached. -/
theorem C4_counterexample :
    ("bogus_metric" ∉ get_fallback_metrics.map MetricDescriptor.name) ∧
      (process_openai_response ⟨some "42"⟩ demo_channel_ok (fun _ => .error "mcp down")
          (fun _ _ _ => "") (fun _ _ _ => "") bogus_query_call
          "how many bogus metrics").1.type ≠ "error" ∧
      (process_openai_response ⟨some "42"⟩ demo_channel_ok (fun _ => .error "mcp down")
          (fun _ _ _ => "") (fun _ _ _ => "") bogus_query_call
          "how many bogus metrics").2.semantic_layer_queries ≠ [] := by
  refine ⟨by decide, by decide, by decide⟩

/-- C4 (amended): arguments that fail to parse as JSON do produce an error
reply with an empty execution trace, but metric names are never validated
against a catalog: for every parsed argument set (whatever its metrics)
under a session with a tenant id, the executor is reached with the
enforced request. -/
theorem C4_no_catalog_validation :
    (∀ (user_context : UserContext)
       (semantic_layer mcp_query : QueryArgs → Except String (List Row))
       (format_single : String → Int → String → String)
       (format_data : List Row → QueryArgs → String → String)
       (content : Option String) (user_question e : String),
       process_openai_response user_context semantic_layer mcp_query format_single format_data
           ⟨content, some ⟨"query_metrics", .error e⟩⟩ user_question =
         ({ type := "error", message := some (trouble_message e), data := none }, ⟨[], []⟩)) ∧
      (∀ (user_context : UserContext) (company_id : String)
         (semantic_layer mcp_query : QueryArgs → Except String (List Row))
         (format_single : String → Int → String → String)
         (format_data : List Row → QueryArgs → String → String)
         (content : Option String) (user_question : String) (query_args : QueryArgs),
         get_company_filter user_context = .ok company_id →
         (process_openai_response user_context semantic_layer mcp_query format_single format_data
             ⟨content, some ⟨"query_metrics", .ok query_args⟩⟩
             user_question).2.semantic_layer_queries =
           [enforce_company_filter company_id query_args]) := by
  constructor
  · intro ctx sl mcp fS fD content q e
    rfl
  · intro ctx cid sl mcp fS fD content q args hg
    rw [process_trace_eq]
    exact execute_trace_sl ctx cid sl mcp args hg

/-- C4 witness: a parse failure and a parsed call under a concrete
session. -/
theorem C4_no_catalog_validation_witness :
    process_openai_response ⟨some "42"⟩ (fun _ => .ok []) (fun _ => .ok [])
        (fun _ _ _ => "") (fun _ _ _ => "")
        ⟨none, some ⟨"query_metrics", .error "bad json"⟩⟩ "q" =
      ({ type := "error", message := some (trouble_message "bad json"), data := none },
        ⟨[], []⟩) ∧
    get_company_filter ⟨some "42"⟩ = .ok "42" ∧
    (process_openai_response ⟨some "42"⟩ (fun _ => .ok []) (fun _ => .ok [])
        (fun _ _ _ => "") (fun _ _ _ => "")
        ⟨none, some ⟨"query_metrics", .ok ⟨["deductible_met"], none, none, none, none⟩⟩⟩
        "q").2.semantic_layer_queries =
      [enforce_company_filter "42" ⟨["deductible_met"], none, none, none, none⟩] :=
  ⟨C4_no_catalog_validation.1 ⟨some "42"⟩ (fun _ => .ok []) (fun _ => .ok [])
     (fun _ _ _ => "") (fun _ _ _ => "") none "q" "bad json",
   rfl,
   C4_no_catalog_validation.2 ⟨some "42"⟩ "42" (fun _ => .ok []) (fun _ => .ok [])
     (fun _ _ _ => "") (fun _ _ _ => "") none "q"
     ⟨["deductible_met"], none, none, none, none⟩ rfl⟩

/-! ### Claim C1 -/

lemma tenant_pat_ne_nil : tenantDimensionRef.toList ≠ [] := by decide

lemma clause_toList (company_id : String) :
    (company_filter_clause company_id).toList =
      tenantDimensionRef.toList ++ ((" = " : String).toList ++ company_id.toList) := by
  unfold company_filter_clause
  rw [toList_append, toList_append, List.append_assoc]

lemma block_paren :
    ∀ r, countSub tenantDimensionRef.toList (("(" : String).toList ++ r) =
      countSub tenantDimensionRef.toList r :=
  fun _ => countSub_append_block (by decide) (by decide)

lemma block_and :
    ∀ r, countSub tenantDimensionRef.toList ((") AND " : String).toList ++ r) =
      countSub tenantDimensionRef.toList r :=
  fun _ => countSub_append_block (by decide) (by decide)

lemma block_tail :
    ∀ r, countSub tenantDimensionRef.toList (tenantDimensionRef.toList.tail ++ r) =
      countSub tenantDimensionRef.toList r :=
  fun _ => countSub_append_block (by decide) (by decide)

lemma block_eq_sign :
    ∀ r, countSub tenantDimensionRef.toList ((" = " : String).toList ++ r) =
      countSub tenantDimensionRef.toList r :=
  fun _ => countSub_append_block (by decide) (by decide)

lemma cross_big_block :
    ∀ k, k < tenantDimensionRef.toList.length → 0 < k →
      ((tenantDimensionRef.toList.drop k).take
          ((") AND " ++ tenantDimensionRef ++ " = ").toList.length)).isPrefixOf
        ((") AND " ++ tenantDimensionRef ++ " = ").toList) = false := by
  decide

lemma and_clause_decomp (company_id : String) :
    (") AND " : String).toList ++ (company_filter_clause company_id).toList =
      (") AND " ++ tenantDimensionRef ++ " = ").toList ++ company_id.toList := by
  rw [clause_toList]
  simp only [toList_append]
  simp [List.append_assoc]

lemma countSub_clause {company_id : String}
    (hcid : countSub tenantDimensionRef.toList company_id.toList = 0) :
    countSub tenantDimensionRef.toList (company_filter_clause company_id).toList = 1 := by
  rw [clause_toList, countSub_cons_self tenant_pat_ne_nil, block_tail, block_eq_sign, hcid]

lemma where_and_toList (w c : String) :
    ("(" ++ w ++ ") AND " ++ c).toList =
      ("(" : String).toList ++ (w.toList ++ ((") AND " : String).toList ++ c.toList)) := by
  simp only [toList_append]
  simp [List.append_assoc]

lemma clause_toList_ne_nil (company_id : String) :
    (company_filter_clause company_id).toList ≠ [] := by
  rw [clause_toList]
  simp [tenant_pat_ne_nil]

lemma tenant_prefix_clause (company_id : String) :
    tenantDimensionRef.toList <+: (company_filter_clause company_id).toList := by
  rw [clause_toList]
  exact List.prefix_append _ _

lemma countSub_enforced (args : QueryArgs) (company_id : String)
    (h0 : countSub tenantDimensionRef.toList (args.where_.getD "").toList = 0)
    (hcid : countSub tenantDimensionRef.toList company_id.toList = 0) :
    countSub tenantDimensionRef.toList
      ((enforce_company_filter company_id args).where_.getD "").toList = 1 := by
  rw [enforce_getD_eq]
  by_cases h : args.where_.getD "" = ""
  · rw [if_pos h]
    exact countSub_clause hcid
  · rw [if_neg h, where_and_toList, block_paren, and_clause_decomp,
      countSub_append_clean tenant_pat_ne_nil h0 cross_big_block, ← and_clause_decomp,
      block_and]
    exact countSub_clause hcid

lemma countSub_full_clause_enforced (args : QueryArgs) (company_id : String)
    (h0 : countSub tenantDimensionRef.toList (args.where_.getD "").toList = 0)
    (hcid : countSub tenantDimensionRef.toList company_id.toList = 0) :
    countSub (company_filter_clause company_id).toList
      ((enforce_company_filter company_id args).where_.getD "").toList = 1 := by
  have hup := countSub_le_of_pattern_extension (tenant_prefix_clause company_id)
    ((enforce_company_filter company_id args).where_.getD "").toList
  rw [countSub_enforced args company_id h0 hcid] at hup
  have hlow : 1 ≤ countSub (company_filter_clause company_id).toList
      ((enforce_company_filter company_id args).where_.getD "").toList := by
    rw [enforce_getD_eq]
    by_cases h : args.where_.getD "" = ""
    · rw [if_pos h]
      have hone := one_le_countSub_append (clause_toList_ne_nil company_id)
        (List.prefix_rfl) []
      rwa [List.nil_append] at hone
    · rw [if_neg h]
      have hsplit :
          ("(" ++ args.where_.getD "" ++ ") AND " ++ company_filter_clause company_id).toList =
            ("(" ++ args.where_.getD "" ++ ") AND ").toList ++
              (company_filter_clause company_id).toList :=
        toList_append _ _
      rw [hsplit]
      exact one_le_countSub_append (clause_toList_ne_nil company_id) (List.prefix_rfl) _
  omega

/-- C1 counterexample: a request whose `where` already carries the tenant
clause (which a prompt-injected LLM `where` argument can produce) ends up
with two tenant clauses after enforcement, not exactly one. -/
theorem C1_counterexample :
    countSubS (company_filter_clause "42")
        ((enforce_company_filter "42"
            ⟨["total_claims"], none, some (company_filter_clause "42"), none,
              none⟩).where_.getD "") = 2 := by
  decide

/-- C1 (amended): for every request whose existing filter expression does
not already mention the tenant dimension and every tenant id not itself
containing the tenant dimension reference, the enforced request's filter
expression contains exactly one tenant dimension reference and exactly one
tenant equality clause bound to that tenant id, AND-composed with the
existing expression when one was present (never replacing it).  A request
already carrying a tenant clause instead receives a second copy, see the
counterexample. -/
theorem C1_exactly_one_tenant_clause :
    ∀ (query_args : QueryArgs) (company_id : String),
      countSubS tenantDimensionRef (query_args.where_.getD "") = 0 →
      countSubS tenantDimensionRef company_id = 0 →
      countSubS tenantDimensionRef
          ((enforce_company_filter company_id query_args).where_.getD "") = 1 ∧
        countSubS (company_filter_clause company_id)
          ((enforce_company_filter company_id query_args).where_.getD "") = 1 ∧
        (enforce_company_filter company_id query_args).where_.getD "" =
          (if query_args.where_.getD "" = "" then company_filter_clause company_id
           else "(" ++ query_args.where_.getD "" ++ ") AND " ++
             company_filter_clause company_id) := by
  intro args cid h0 hcid
  exact ⟨countSub_enforced args cid h0 hcid,
    countSub_full_clause_enforced args cid h0 hcid,
    enforce_getD_eq cid args⟩

/-- C1 witness: a request with a clean pre-existing filter under tenant
`42`. -/
theorem C1_exactly_one_tenant_clause_witness :
    countSubS tenantDimensionRef
        ((⟨["total_claims"], none, some "x > 5", none, none⟩ : QueryArgs).where_.getD "") = 0 ∧
      countSubS tenantDimensionRef "42" = 0 ∧
      (countSubS tenantDimensionRef
          ((enforce_company_filter "42"
              ⟨["total_claims"], none, some "x > 5", none, none⟩).where_.getD "") = 1 ∧
        countSubS (company_filter_clause "42")
          ((enforce_company_filter "42"
              ⟨["total_claims"], none, some "x > 5", none, none⟩).where_.getD "") = 1 ∧
        (enforce_company_filter "42"
            ⟨["total_claims"], none, some "x > 5", none, none⟩).where_.getD "" =
          (if (⟨["total_claims"], none, some "x > 5", none, none⟩ : QueryArgs).where_.getD "" = ""
           then company_filter_clause "42"
           else "(" ++
             (⟨["total_claims"], none, some "x > 5", none, none⟩ : QueryArgs).where_.getD "" ++
             ") AND " ++ company_filter_clause "42")) :=
  ⟨by decide, by decide,
   C1_exactly_one_tenant_clause ⟨["total_claims"], none, some "x > 5", none, none⟩ "42"
     (by decide) (by decide)⟩

end EmbeddedApp
